import Mathlib

/-!
Shallow embedding of the claimable-identity SSH gateway in
`mcqterm/ssh.py` (class `UserClaimableSSHServer` and its helpers).

Pure data is modelled with Lean structures; the filesystem (the Key
Store directory of per-username authorized-key files) is an explicit
association list threaded through the handlers; Python exceptions are
modelled with an explicit error type carried by an outcome datatype so
that the `try/except` in `process_handler` can be expressed faithfully.
-/

namespace McqTerm

/-- Python exception classes that appear in the modelled code paths. -/
inductive PyError where
  | typeError
  | valueError
  | osError
deriving DecidableEq, Repr

/-- Characters rejected by `pathvalidate.sanitize_filename` (universal
platform): control characters and the reserved set. -/
def invalidFilenameChar (c : Char) : Bool :=
  c.toNat < 32 || c == '/' || c == '\\' || c == ':' || c == '*' ||
    c == '?' || c == '"' || c == '<' || c == '>' || c == '|'

/-- Model of `pathvalidate.sanitize_filename`: drop the invalid
characters, keeping the rest of the claimed name. -/
def sanitize_filename (s : String) : String :=
  String.mk (s.data.filter (fun c => !invalidFilenameChar c))

/-- Decide whether the character list `pat` occurs as a contiguous
run inside `s` (Python's `pat in s` on strings). -/
def charsContain (pat : List Char) : List Char → Bool
  | [] => pat.isEmpty
  | c :: rest => pat.isPrefixOf (c :: rest) || charsContain pat rest

/-- Python's substring test `pat in s`. -/
def strContains (s pat : String) : Bool :=
  charsContain pat.data s.data

/-- Python's `s.endswith(suffix)`. -/
def strEndsWith (s suffix : String) : Bool :=
  suffix.data.isSuffixOf s.data

/-- Split a character list on a separator character. -/
def splitChars (sep : Char) : List Char → List (List Char)
  | [] => [[]]
  | c :: rest =>
    let r := splitChars sep rest
    if c = sep then [] :: r
    else
      match r with
      | [] => [[c]]
      | h :: t => (c :: h) :: t

/-- Python's `s.split(sep)` for a one-character separator. -/
def strSplitOn (s : String) (sep : Char) : List String :=
  (splitChars sep s.data).map String.mk

/-- Configuration held by `UserClaimableSSHServer.__init__`: the claim
password, the external address override and the authorized-keys
directory (paths are modelled as plain strings). -/
structure ServerConfig where
  user_claim_password : Option String
  external_address : Option String
  authorized_keys_dir : String
deriving DecidableEq, Repr

/-- The per-connection extra-info mapping: `username`, the
`password_auth_used` flag (an absent key reads as falsy, modelled as
`false`) and the `external_address` copied in by `connection_made`. -/
structure ExtraInfo where
  username : String
  password_auth_used : Bool
  external_address : Option String
deriving DecidableEq, Repr

/-- The structured-logging context `self._log_info`: keys are set as
the connection progresses, so each is an `Option`. -/
structure LogInfo where
  peer_hostname : Option String
  peer_port : Option Nat
  username : Option String
  password_auth_used : Option Bool
  command : Option (Option String)
deriving DecidableEq, Repr

/-- The Connection Context: per-connection mutable state, comprising
the extra-info mapping, the logging context, the local socket name and
the list of public keys the client has offered so far
(`self._conn._client_keys`). -/
structure ConnectionContext where
  extra : ExtraInfo
  log : LogInfo
  sockname : String × Nat
  client_keys : List String
deriving DecidableEq, Repr

/-- One SSH process request: an optional command string, an optional
negotiated terminal type, and the bytes available on standard input. -/
structure ProcessRequest where
  command : Option String
  terminal_type : Option String
  stdin : String
deriving DecidableEq, Repr

/-- The Key Store: files as an association list from path to content,
plus the set of directories known to exist. -/
structure FileSystem where
  files : List (String × String)
  dirs : List String
deriving DecidableEq, Repr

/-- Look up a file's content by path. -/
def lookupFile : List (String × String) → String → Option String
  | [], _ => none
  | (p, c) :: rest, path => if p = path then some c else lookupFile rest path

/-- Append `payload` to the file at `path`, creating it when absent
(Python `open(path, "a")` followed by `write`). -/
def appendFiles : List (String × String) → String → String → List (String × String)
  | [], path, payload => [(path, payload)]
  | (p, c) :: rest, path, payload =>
    if p = path then (p, c ++ payload) :: rest
    else (p, c) :: appendFiles rest path payload

def FileSystem.readFile (fs : FileSystem) (path : String) : Option String :=
  lookupFile fs.files path

def FileSystem.writeAppend (fs : FileSystem) (path payload : String) : FileSystem :=
  { fs with files := appendFiles fs.files path payload }

/-- `Path.mkdir(parents=True, exist_ok=True)`. -/
def FileSystem.mkdirP (fs : FileSystem) (d : String) : FileSystem :=
  if d ∈ fs.dirs then fs else { fs with dirs := d :: fs.dirs }

/-- Values a session handler may return, with Python semantics for
truthiness and exit-status coercion. -/
inductive PyValue where
  | int (n : Int)
  | bool (b : Bool)
  | str (s : String)
  | none
deriving DecidableEq, Repr

/-- Python truthiness of a `PyValue`. -/
def PyValue.truthy : PyValue → Bool
  | .int n => n != 0
  | .bool b => b
  | .str s => s != ""
  | .none => false

/-- Python's `a or b`: `a` when truthy, otherwise `b`. -/
def pyOr (a b : PyValue) : PyValue :=
  if a.truthy then a else b

/-- The external engine's `process.exit(status)`: asyncssh requires an
integer exit status (a Python `bool` is an `int`, so `True` exits with
status 1); any other value raises a `TypeError` at the call site. -/
def processExit : PyValue → Except PyError Int
  | .int n => .ok n
  | .bool b => .ok (if b then 1 else 0)
  | .str _ => .error .typeError
  | .none => .error .typeError

/-- Behaviour of the injected session handler on this request: it
either returns a value or raises. -/
inductive HandlerOutcome where
  | returns (v : PyValue)
  | raises (e : PyError)
deriving DecidableEq, Repr

/-- Outcome of one of the two process-handler bodies, before the
`try/except` in `process_handler`: either the body ran to an exit call
with an integer status, or an exception escaped; both carry the
filesystem, the lines written to stdout and how many times the session
handler was invoked. -/
inductive HandlerStep where
  | done (fs : FileSystem) (stdout : List String) (status : Int) (handlerCalls : Nat)
  | raised (fs : FileSystem) (stdout : List String) (handlerCalls : Nat) (e : PyError)
deriving DecidableEq, Repr

/-- A single quote character, for rendering Python `repr` of a string. -/
def squote : String := String.singleton (Char.ofNat 39)

/-- Approximation of Python `repr` on a string (single quotes around
the text). -/
def pyReprStr (s : String) : String := squote ++ s ++ squote

/-- The `ADD_AUTHORIZED_KEYS_HELP` template, already formatted with the
given username, hostname and port. -/
def add_authorized_keys_help (username hostname port : String) : String :=
  "You are not using public key authentification.\n" ++
  "In order to claim the " ++ pyReprStr username ++
  " username, please use one of the following command:\n\n" ++
  "    ssh-copy-id -p " ++ port ++ " " ++ username ++ "@" ++ hostname ++ "\n" ++
  "    ssh -p " ++ port ++ " " ++ username ++ "@" ++ hostname ++
  " add-authorized-keys < ~/.ssh/id_rsa.pub\n"

/-- `show_add_authorized_keys_help`: resolve hostname and port from the
external address override (or the local socket name) and format the
help message. Python's two-variable unpacking of `split(":")` raises
`ValueError` unless the split has exactly two parts. -/
def show_add_authorized_keys_help (ctx : ConnectionContext) : Except PyError String :=
  match ctx.extra.external_address with
  | Option.none =>
    .ok (add_authorized_keys_help ctx.extra.username ctx.sockname.1 (toString ctx.sockname.2))
  | Option.some ea =>
    if strContains ea ":" then
      match strSplitOn ea ':' with
      | [h, p] => .ok (add_authorized_keys_help ctx.extra.username h p)
      | _ => .error .valueError
    else
      .ok (add_authorized_keys_help ctx.extra.username ea "22")

/-- An external address that the help renderer can format: absent, or
without a colon, or splitting into exactly host and port. -/
def addressWellFormed : Option String → Bool
  | Option.none => true
  | Option.some ea => !strContains ea ":" || (strSplitOn ea ':').length == 2

/-- `connection_made`: build the initial Connection Context, copying
the external address override into extra-info and recording the peer
in the logging context. The engine stores the claimed username. -/
def connection_made (cfg : ServerConfig) (username : String) (peer : String × Nat)
    (sockname : String × Nat) (client_keys : List String) : ConnectionContext :=
  { extra := { username := username, password_auth_used := false,
               external_address := cfg.external_address },
    log := { peer_hostname := some peer.1, peer_port := some peer.2,
             username := none, password_auth_used := none, command := none },
    sockname := sockname,
    client_keys := client_keys }

/-- Truthiness of the configured claim password (`bool(x)` on an
optional string: `None` and the empty string are falsy). -/
def truthyOptStr : Option String → Bool
  | Option.none => false
  | Option.some s => s != ""

/-- `password_auth_supported`:
`bool(self._user_claim_password and not self._conn._client_keys)`. -/
def password_auth_supported (cfg : ServerConfig) (ctx : ConnectionContext) : Bool :=
  truthyOptStr cfg.user_claim_password && ctx.client_keys.isEmpty

/-- Result of `validate_password`: the boolean outcome plus the updated
Connection Context. -/
structure ValidateResult where
  result : Bool
  ctx : ConnectionContext
deriving DecidableEq, Repr

/-- `validate_password`: compare the candidate with the configured
claim password; on success set `password_auth_used = True` in
extra-info; always record the outcome in the logging context. -/
def validate_password (cfg : ServerConfig) (ctx : ConnectionContext)
    (_username password : String) : ValidateResult :=
  let result := cfg.user_claim_password == some password
  let ctx1 :=
    if result then
      { ctx with extra := { ctx.extra with password_auth_used := true } }
    else ctx
  let ctx2 := { ctx1 with log := { ctx1.log with password_auth_used := some result } }
  { result := result, ctx := ctx2 }

/-- `conn.set_authorized_keys(path)`: the external engine loads the
authorized-keys file at `path` eagerly, raising `OSError` when it
cannot be read (in this model, when the file is absent). -/
def set_authorized_keys (fs : FileSystem) (path : String) : Except PyError Unit :=
  match fs.readFile path with
  | some _ => .ok ()
  | Option.none => .error .osError

/-- Result of `begin_auth`: accept decision, updated Connection
Context, the path handed to `set_authorized_keys`, and whether that
call succeeded. -/
structure BeginAuthResult where
  accept : Bool
  ctx : ConnectionContext
  keyPath : String
  keysLoaded : Bool
deriving DecidableEq, Repr

/-- `begin_auth`: sanitize the claimed username, record it in the
logging context, point credential validation at the hard-coded path
`./authorized_keys/<sanitized>` — swallowing `OSError`/`ValueError` —
and always return `True`. -/
def begin_auth (fs : FileSystem) (ctx : ConnectionContext) (username : String) :
    BeginAuthResult :=
  let u := sanitize_filename username
  let ctx1 := { ctx with log := { ctx.log with username := some u } }
  let path := "./authorized_keys/" ++ u
  match set_authorized_keys fs path with
  | .ok _ => { accept := true, ctx := ctx1, keyPath := path, keysLoaded := true }
  | .error _ => { accept := true, ctx := ctx1, keyPath := path, keysLoaded := false }

/-- The key-claim trigger test from `process_command_handler`:
`"echo >> .ssh/authorized_keys" in command or "add-authorized-keys" in
command`. -/
def commandTriggersClaim (command : String) : Bool :=
  strContains command "echo >> .ssh/authorized_keys" ||
    strContains command "add-authorized-keys"

/-- Path of an identity's Key Store Entry as the claim command builds
it: `<authorized_keys_dir> / sanitize_filename(username)`. -/
def claimEntryPath (cfg : ServerConfig) (username : String) : String :=
  cfg.authorized_keys_dir ++ "/" ++ sanitize_filename username

/-- The notice printed for an unsupported command. -/
def unsupportedCommandNotice (command : String) : String :=
  "Command " ++ pyReprStr command ++ " is not supported."

/-- The notice printed when a shell request has no terminal. -/
def useTerminalNotice : String :=
  "Please use a terminal to access the interactive interface."

/-- `process_command_handler`: the claim branch reads all of stdin,
ensures a trailing newline, creates the Key Store directory, appends to
the identity's entry and exits 0; any other command prints the
unsupported notice, then exits 1 — after printing a blank line and the
claim help when the connection authenticated by password. -/
def process_command_handler (cfg : ServerConfig) (ctx : ConnectionContext)
    (fs : FileSystem) (command stdin : String) : HandlerStep :=
  if commandTriggersClaim command then
    let payload := if strEndsWith stdin "\n" then stdin else stdin ++ "\n"
    let fs1 := fs.mkdirP cfg.authorized_keys_dir
    let path := claimEntryPath cfg ctx.extra.username
    .done (fs1.writeAppend path payload) [] 0 0
  else
    let notice := unsupportedCommandNotice command
    if !ctx.extra.password_auth_used then
      .done fs [notice] 1 0
    else
      match show_add_authorized_keys_help ctx with
      | .ok msg => .done fs [notice, "", msg] 1 0
      | .error e => .raised fs [notice, ""] 0 e

/-- `process_shell_handler`: reject password-authenticated connections
with the claim help, reject terminal-less requests with a notice, and
otherwise invoke the session handler once and exit with
`result or 0`. -/
def process_shell_handler (ctx : ConnectionContext) (fs : FileSystem)
    (terminal : Option String) (handler : HandlerOutcome) : HandlerStep :=
  if ctx.extra.password_auth_used then
    match show_add_authorized_keys_help ctx with
    | .ok msg => .done fs [msg] 1 0
    | .error e => .raised fs [] 0 e
  else
    match terminal with
    | Option.none => .done fs [useTerminalNotice] 1 0
    | Option.some _ =>
      match handler with
      | .raises e => .raised fs [] 1 e
      | .returns v =>
        match processExit (pyOr v (PyValue.int 0)) with
        | .ok n => .done fs [] n 1
        | .error e => .raised fs [] 1 e

/-- The username sanitization that `process_handler` performs on the
Connection Context before dispatching. -/
def sanitizeCtx (ctx : ConnectionContext) : ConnectionContext :=
  { ctx with extra := { ctx.extra with username := sanitize_filename ctx.extra.username } }

/-- Final outcome of `process_handler`: the updated Connection Context,
the filesystem, the stdout transcript, the exit status, the number of
session-handler invocations, and whether the `except` branch fired. -/
structure ProcessOutcome where
  ctx : ConnectionContext
  fs : FileSystem
  stdout : List String
  status : Int
  handlerCalls : Nat
  raisedCaught : Bool
deriving DecidableEq, Repr

/-- Dispatch of `process_handler`: shell requests (no command) go to
`process_shell_handler`, commands to `process_command_handler`. -/
def processBody (cfg : ServerConfig) (ctx : ConnectionContext) (fs : FileSystem)
    (req : ProcessRequest) (handler : HandlerOutcome) : HandlerStep :=
  match req.command with
  | Option.none => process_shell_handler ctx fs req.terminal_type handler
  | Option.some cmd => process_command_handler cfg ctx fs cmd req.stdin

/-- The Connection Context as `process_handler` leaves it before
dispatching: username sanitized, command recorded in the logging
context. -/
def handlerCtx (ctx : ConnectionContext) (req : ProcessRequest) : ConnectionContext :=
  let ctx1 := sanitizeCtx ctx
  { ctx1 with log := { ctx1.log with command := some req.command } }

/-- `process_handler`: sanitize the stored username, record the command
in the logging context, run the body, and catch any exception, mapping
it to exit status 1. The return type has no error constructor: no
exception propagates to the transport layer. -/
def process_handler (cfg : ServerConfig) (ctx : ConnectionContext) (fs : FileSystem)
    (req : ProcessRequest) (handler : HandlerOutcome) : ProcessOutcome :=
  let ctx2 := handlerCtx ctx req
  match processBody cfg ctx2 fs req handler with
  | .done fs2 out st calls =>
    { ctx := ctx2, fs := fs2, stdout := out, status := st,
      handlerCalls := calls, raisedCaught := false }
  | .raised fs2 out calls _ =>
    { ctx := ctx2, fs := fs2, stdout := out, status := 1,
      handlerCalls := calls, raisedCaught := true }

/-- Filesystem left by a handler body, whether or not it raised. -/
def HandlerStep.fsAfter : HandlerStep → FileSystem
  | .done fs _ _ _ => fs
  | .raised fs _ _ _ => fs

/-- Stdout transcript left by a handler body. -/
def HandlerStep.stdoutAfter : HandlerStep → List String
  | .done _ out _ _ => out
  | .raised _ out _ _ => out

/-- Exit status observed once the `try/except` of `process_handler`
has run: a raised exception is mapped to 1. -/
def HandlerStep.exitStatus : HandlerStep → Int
  | .done _ _ st _ => st
  | .raised _ _ _ _ => 1

/-- How many times the session handler was invoked by the body. -/
def HandlerStep.handlerCallCount : HandlerStep → Nat
  | .done _ _ _ c => c
  | .raised _ _ c _ => c

/-- Whether the body raised (so the `except` branch fires). -/
def HandlerStep.didRaise : HandlerStep → Bool
  | .done _ _ _ _ => false
  | .raised _ _ _ _ => true

/-! Helper lemmas about the Key Store model. -/

theorem lookup_appendFiles_self (l : List (String × String)) (p payload : String) :
    lookupFile (appendFiles l p payload) p =
      some ((lookupFile l p).getD "" ++ payload) := by
  induction l with
  | nil => simp [appendFiles, lookupFile]
  | cons hd tl ih =>
    obtain ⟨q, c⟩ := hd
    by_cases h : q = p
    · simp [appendFiles, lookupFile, h]
    · simp [appendFiles, lookupFile, h, ih]

theorem lookup_appendFiles_other (l : List (String × String)) (p payload q : String)
    (h : q ≠ p) :
    lookupFile (appendFiles l p payload) q = lookupFile l q := by
  induction l with
  | nil => simp [appendFiles, lookupFile, Ne.symm h]
  | cons hd tl ih =>
    obtain ⟨r, c⟩ := hd
    by_cases hr : r = p
    · subst hr
      have hrq : ¬ r = q := fun e => h e.symm
      simp [appendFiles, lookupFile, hrq]
    · by_cases hq : r = q
      · subst hq
        simp [appendFiles, lookupFile, hr]
      · simp [appendFiles, lookupFile, hr, hq, ih]

theorem readFile_writeAppend_self (fs : FileSystem) (p payload : String) :
    (fs.writeAppend p payload).readFile p =
      some ((fs.readFile p).getD "" ++ payload) := by
  simp [FileSystem.readFile, FileSystem.writeAppend, lookup_appendFiles_self]

theorem readFile_writeAppend_other (fs : FileSystem) (p payload q : String) (h : q ≠ p) :
    (fs.writeAppend p payload).readFile q = fs.readFile q := by
  simp [FileSystem.readFile, FileSystem.writeAppend, lookup_appendFiles_other _ _ _ _ h]

theorem readFile_mkdirP (fs : FileSystem) (d q : String) :
    (fs.mkdirP d).readFile q = fs.readFile q := by
  simp only [FileSystem.mkdirP, FileSystem.readFile]
  split <;> rfl

theorem mem_dirs_mkdirP (fs : FileSystem) (d : String) : d ∈ (fs.mkdirP d).dirs := by
  simp only [FileSystem.mkdirP]
  split
  · assumption
  · exact List.mem_cons_self _ _

theorem dirs_writeAppend (fs : FileSystem) (p payload : String) :
    (fs.writeAppend p payload).dirs = fs.dirs := rfl

/-! Structural lemmas about the process router. -/

theorem process_handler_eq (cfg : ServerConfig) (ctx : ConnectionContext)
    (fs : FileSystem) (req : ProcessRequest) (handler : HandlerOutcome) :
    process_handler cfg ctx fs req handler =
      { ctx := handlerCtx ctx req,
        fs := (processBody cfg (handlerCtx ctx req) fs req handler).fsAfter,
        stdout := (processBody cfg (handlerCtx ctx req) fs req handler).stdoutAfter,
        status := (processBody cfg (handlerCtx ctx req) fs req handler).exitStatus,
        handlerCalls := (processBody cfg (handlerCtx ctx req) fs req handler).handlerCallCount,
        raisedCaught := (processBody cfg (handlerCtx ctx req) fs req handler).didRaise } := by
  cases h : processBody cfg (handlerCtx ctx req) fs req handler <;>
    simp [process_handler, h, HandlerStep.fsAfter, HandlerStep.stdoutAfter,
      HandlerStep.exitStatus, HandlerStep.handlerCallCount, HandlerStep.didRaise]

theorem handlerCtx_password (ctx : ConnectionContext) (req : ProcessRequest) :
    (handlerCtx ctx req).extra.password_auth_used = ctx.extra.password_auth_used := rfl

theorem handlerCtx_username (ctx : ConnectionContext) (req : ProcessRequest) :
    (handlerCtx ctx req).extra.username = sanitize_filename ctx.extra.username := rfl

theorem handlerCtx_external (ctx : ConnectionContext) (req : ProcessRequest) :
    (handlerCtx ctx req).extra.external_address = ctx.extra.external_address := rfl

theorem command_body_no_handler (cfg : ServerConfig) (ctx : ConnectionContext)
    (fs : FileSystem) (cmd stdin : String) :
    (process_command_handler cfg ctx fs cmd stdin).handlerCallCount = 0 := by
  unfold process_command_handler
  repeat' split <;> try rfl

theorem shell_body_gate (ctx : ConnectionContext) (fs : FileSystem)
    (terminal : Option String) (handler : HandlerOutcome) :
    (process_shell_handler ctx fs terminal handler).handlerCallCount ≠ 0 →
      ctx.extra.password_auth_used = false ∧ terminal ≠ none := by
  unfold process_shell_handler
  cases hp : ctx.extra.password_auth_used
  case false =>
    cases terminal with
    | none => simp [HandlerStep.handlerCallCount]
    | some t => exact fun _ => ⟨rfl, by simp⟩
  case true =>
    cases hh : show_add_authorized_keys_help ctx <;>
      simp [hh, HandlerStep.handlerCallCount]

theorem shell_body_password_reject (ctx : ConnectionContext) (fs : FileSystem)
    (terminal : Option String) (handler : HandlerOutcome)
    (h : ctx.extra.password_auth_used = true) :
    (process_shell_handler ctx fs terminal handler).exitStatus = 1 ∧
      (process_shell_handler ctx fs terminal handler).handlerCallCount = 0 := by
  unfold process_shell_handler
  rw [h]
  cases show_add_authorized_keys_help ctx <;>
    simp [HandlerStep.exitStatus, HandlerStep.handlerCallCount]

/-- C1: the injected Session Handler is invoked only for a shell
request (no command) on a connection whose context does not record
`password_auth_used = true` and which negotiated a terminal type; and
every shell request with `password_auth_used = true` exits 1 without
the Session Handler being invoked. -/
theorem sessionHandlerGateInvariant (cfg : ServerConfig) (ctx : ConnectionContext)
    (fs : FileSystem) (req : ProcessRequest) (handler : HandlerOutcome) :
    ((process_handler cfg ctx fs req handler).handlerCalls ≠ 0 →
      req.command = none ∧ ctx.extra.password_auth_used = false ∧
        req.terminal_type ≠ none) ∧
    (req.command = none → ctx.extra.password_auth_used = true →
      (process_handler cfg ctx fs req handler).status = 1 ∧
        (process_handler cfg ctx fs req handler).handlerCalls = 0) := by
  rw [process_handler_eq]
  constructor
  · intro hcalls
    match hc : req.command with
    | some cmd =>
      exfalso
      apply hcalls
      simp only [processBody, hc]
      exact command_body_no_handler cfg _ fs cmd req.stdin
    | none =>
      refine ⟨rfl, ?_⟩
      simp only [processBody, hc] at hcalls
      have := shell_body_gate (handlerCtx ctx req) fs req.terminal_type handler hcalls
      rwa [handlerCtx_password] at this
  · intro hc hp
    simp only [processBody, hc]
    exact shell_body_password_reject (handlerCtx ctx req) fs req.terminal_type handler
      (by rwa [handlerCtx_password])

/-- Witness for C1 at a concrete password-authenticated shell request:
exit status 1 and no session-handler invocation. -/
theorem sessionHandlerGateInvariant_witness :
    (process_handler
        { user_claim_password := some "hunter2", external_address := none,
          authorized_keys_dir := "authorized_keys" }
        { extra := { username := "alice", password_auth_used := true,
                     external_address := none },
          log := { peer_hostname := none, peer_port := none, username := none,
                   password_auth_used := none, command := none },
          sockname := ("localhost", 8022), client_keys := [] }
        { files := [], dirs := [] }
        { command := none, terminal_type := some "xterm", stdin := "" }
        (.returns (.int 0))).status = 1 ∧
    (process_handler
        { user_claim_password := some "hunter2", external_address := none,
          authorized_keys_dir := "authorized_keys" }
        { extra := { username := "alice", password_auth_used := true,
                     external_address := none },
          log := { peer_hostname := none, peer_port := none, username := none,
                   password_auth_used := none, command := none },
          sockname := ("localhost", 8022), client_keys := [] }
        { files := [], dirs := [] }
        { command := none, terminal_type := some "xterm", stdin := "" }
        (.returns (.int 0))).handlerCalls = 0 :=
  (sessionHandlerGateInvariant _ _ _ _ _).2 rfl rfl

/-- C2: password authentication is offered iff a claim password is
configured (truthy) and the client has offered no public key; in
particular a client that offered any key is never offered password
authentication. -/
theorem passwordAuthOfferedIff (cfg : ServerConfig) (ctx : ConnectionContext) :
    (password_auth_supported cfg ctx = true ↔
      (truthyOptStr cfg.user_claim_password = true ∧ ctx.client_keys = [])) ∧
    (ctx.client_keys ≠ [] → password_auth_supported cfg ctx = false) := by
  constructor
  · simp [password_auth_supported, List.isEmpty_iff]
  · intro h
    simp [password_auth_supported, List.isEmpty_iff, h]

theorem strEndsWith_append_newline (s : String) :
    strEndsWith (s ++ "\n") "\n" = true := by
  simp [strEndsWith, String.data_append, List.isSuffixOf]

theorem command_body_claim (cfg : ServerConfig) (ctx : ConnectionContext)
    (fs : FileSystem) (cmd stdin : String) (h : commandTriggersClaim cmd = true) :
    process_command_handler cfg ctx fs cmd stdin =
      .done ((fs.mkdirP cfg.authorized_keys_dir).writeAppend
        (claimEntryPath cfg ctx.extra.username)
        (if strEndsWith stdin "\n" then stdin else stdin ++ "\n")) [] 0 0 := by
  simp [process_command_handler, h]

/-- Update only the `password_auth_used` flag of a Connection Context. -/
def setPasswordFlag (ctx : ConnectionContext) (b : Bool) : ConnectionContext :=
  { ctx with extra := { ctx.extra with password_auth_used := b } }

theorem process_handler_claim (cfg : ServerConfig) (ctx : ConnectionContext)
    (fs : FileSystem) (cmd stdin : String) (t : Option String)
    (handler : HandlerOutcome) (h : commandTriggersClaim cmd = true) :
    process_handler cfg ctx fs ⟨some cmd, t, stdin⟩ handler =
      { ctx := handlerCtx ctx ⟨some cmd, t, stdin⟩,
        fs := (fs.mkdirP cfg.authorized_keys_dir).writeAppend
          (claimEntryPath cfg (sanitize_filename ctx.extra.username))
          (if strEndsWith stdin "\n" then stdin else stdin ++ "\n"),
        stdout := [], status := 0, handlerCalls := 0, raisedCaught := false } := by
  rw [process_handler_eq]
  have hbody : processBody cfg (handlerCtx ctx ⟨some cmd, t, stdin⟩) fs
      ⟨some cmd, t, stdin⟩ handler =
      .done ((fs.mkdirP cfg.authorized_keys_dir).writeAppend
        (claimEntryPath cfg (sanitize_filename ctx.extra.username))
        (if strEndsWith stdin "\n" then stdin else stdin ++ "\n")) [] 0 0 := by
    simp only [processBody]
    rw [command_body_claim _ _ _ _ _ h]
    rfl
  rw [hbody]
  rfl

/-- Witness for C2: with a configured password but one offered client
key, password authentication is not offered. -/
theorem passwordAuthOfferedIff_witness :
    password_auth_supported
      { user_claim_password := some "hunter2", external_address := none,
        authorized_keys_dir := "authorized_keys" }
      { extra := { username := "alice", password_auth_used := false,
                   external_address := none },
        log := { peer_hostname := none, peer_port := none, username := none,
                 password_auth_used := none, command := none },
        sockname := ("localhost", 8022), client_keys := ["ssh-rsa AAAA"] } = false :=
  (passwordAuthOfferedIff _ _).2 (by decide)

/-- Sample configuration used by concrete witnesses. -/
def sampleCfg : ServerConfig :=
  { user_claim_password := some "hunter2", external_address := none,
    authorized_keys_dir := "authorized_keys" }

/-- Sample Connection Context of a public-key-authenticated client. -/
def sampleCtx : ConnectionContext :=
  connection_made sampleCfg "alice" ("127.0.0.1", 50000) ("localhost", 8022) []

/-- The empty Key Store. -/
def emptyFS : FileSystem := { files := [], dirs := [] }

/-- C3: for a command matching the key-claim trigger, the dispatcher
reads stdin in full, normalizes it to end with a trailing newline,
creates the Key Store directory, appends the payload to the identity's
Key Store Entry and exits 0; with input "ssh-key-text" the entry gains
exactly "ssh-key-text" followed by a single newline. -/
theorem claimCommandAppendsKey (cfg : ServerConfig) (ctx : ConnectionContext)
    (fs : FileSystem) (cmd stdin : String) (t : Option String)
    (handler : HandlerOutcome) (h : commandTriggersClaim cmd = true) :
    (process_handler cfg ctx fs ⟨some cmd, t, stdin⟩ handler).status = 0 ∧
    cfg.authorized_keys_dir ∈
      (process_handler cfg ctx fs ⟨some cmd, t, stdin⟩ handler).fs.dirs ∧
    (process_handler cfg ctx fs ⟨some cmd, t, stdin⟩ handler).fs.readFile
        (claimEntryPath cfg (sanitize_filename ctx.extra.username)) =
      some ((fs.readFile (claimEntryPath cfg (sanitize_filename ctx.extra.username))).getD ""
        ++ (if strEndsWith stdin "\n" then stdin else stdin ++ "\n")) ∧
    strEndsWith (if strEndsWith stdin "\n" then stdin else stdin ++ "\n") "\n" = true ∧
    (stdin = "ssh-key-text" →
      (process_handler cfg ctx fs ⟨some cmd, t, stdin⟩ handler).fs.readFile
          (claimEntryPath cfg (sanitize_filename ctx.extra.username)) =
        some ((fs.readFile (claimEntryPath cfg (sanitize_filename ctx.extra.username))).getD ""
          ++ "ssh-key-text\n")) := by
  rw [process_handler_claim _ _ _ _ _ _ _ h]
  refine ⟨rfl, ?_, ?_, ?_, ?_⟩
  · rw [dirs_writeAppend]
    exact mem_dirs_mkdirP fs _
  · rw [readFile_writeAppend_self, readFile_mkdirP]
  · by_cases hs : strEndsWith stdin "\n" = true
    · rw [if_pos hs]
      exact hs
    · rw [if_neg hs]
      exact strEndsWith_append_newline stdin
  · intro hst
    subst hst
    rw [readFile_writeAppend_self, readFile_mkdirP]
    rfl

/-- Witness for C3 at the concrete claim command with input
"ssh-key-text" (no trailing newline). -/
theorem claimCommandAppendsKey_witness :
    commandTriggersClaim "add-authorized-keys" = true ∧
    (process_handler sampleCfg sampleCtx emptyFS
        ⟨some "add-authorized-keys", Option.none, "ssh-key-text"⟩
        (HandlerOutcome.returns PyValue.none)).status = 0 :=
  ⟨by decide,
    (claimCommandAppendsKey sampleCfg sampleCtx emptyFS "add-authorized-keys"
      "ssh-key-text" Option.none (HandlerOutcome.returns PyValue.none) (by decide)).1⟩

/-- C8: a successful claim strictly appends — the previous content is
an unchanged prefix (the new entry is exactly old content followed by
the payload), no other file changes, and running the same claim twice
leaves both copies in place with no deduplication. -/
theorem claimAppendOnlyNoDedup (cfg : ServerConfig) (ctx : ConnectionContext)
    (fs : FileSystem) (cmd stdin : String) (t : Option String)
    (handler : HandlerOutcome) (h : commandTriggersClaim cmd = true) :
    (process_handler cfg ctx fs ⟨some cmd, t, stdin⟩ handler).status = 0 ∧
    (process_handler cfg ctx (process_handler cfg ctx fs ⟨some cmd, t, stdin⟩ handler).fs
        ⟨some cmd, t, stdin⟩ handler).status = 0 ∧
    (process_handler cfg ctx fs ⟨some cmd, t, stdin⟩ handler).fs.readFile
        (claimEntryPath cfg (sanitize_filename ctx.extra.username)) =
      some ((fs.readFile (claimEntryPath cfg (sanitize_filename ctx.extra.username))).getD ""
        ++ (if strEndsWith stdin "\n" then stdin else stdin ++ "\n")) ∧
    (process_handler cfg ctx (process_handler cfg ctx fs ⟨some cmd, t, stdin⟩ handler).fs
        ⟨some cmd, t, stdin⟩ handler).fs.readFile
        (claimEntryPath cfg (sanitize_filename ctx.extra.username)) =
      some ((fs.readFile (claimEntryPath cfg (sanitize_filename ctx.extra.username))).getD ""
        ++ (if strEndsWith stdin "\n" then stdin else stdin ++ "\n")
        ++ (if strEndsWith stdin "\n" then stdin else stdin ++ "\n")) ∧
    (∀ q, q ≠ claimEntryPath cfg (sanitize_filename ctx.extra.username) →
      (process_handler cfg ctx fs ⟨some cmd, t, stdin⟩ handler).fs.readFile q =
        fs.readFile q) := by
  rw [process_handler_claim _ _ _ _ _ _ _ h]
  rw [process_handler_claim _ _ _ _ _ _ _ h]
  refine ⟨rfl, rfl, ?_, ?_, ?_⟩
  · rw [readFile_writeAppend_self, readFile_mkdirP]
  · rw [readFile_writeAppend_self, readFile_mkdirP,
      readFile_writeAppend_self, readFile_mkdirP, Option.getD_some]
  · intro q hq
    rw [readFile_writeAppend_other _ _ _ _ hq, readFile_mkdirP]

/-- Witness for C8: claiming the same key twice on the empty store
leaves two copies. -/
theorem claimAppendOnlyNoDedup_witness :
    commandTriggersClaim "add-authorized-keys" = true ∧
    (process_handler sampleCfg sampleCtx
        (process_handler sampleCfg sampleCtx emptyFS
          ⟨some "add-authorized-keys", Option.none, "ssh-rsa KEY\n"⟩
          (HandlerOutcome.returns PyValue.none)).fs
        ⟨some "add-authorized-keys", Option.none, "ssh-rsa KEY\n"⟩
        (HandlerOutcome.returns PyValue.none)).status = 0 :=
  ⟨by decide,
    (claimAppendOnlyNoDedup sampleCfg sampleCtx emptyFS "add-authorized-keys"
      "ssh-rsa KEY\n" Option.none (HandlerOutcome.returns PyValue.none) (by decide)).2.1⟩

/-- C9: the claim command's effect and exit status do not depend on the
`password_auth_used` flag: the same command and input produce the same
filesystem, status and output under either authentication mode. -/
theorem claimCommandAuthModeIndependent (cfg : ServerConfig) (ctx : ConnectionContext)
    (fs : FileSystem) (cmd stdin : String) (t : Option String)
    (handler : HandlerOutcome) (b₁ b₂ : Bool) (h : commandTriggersClaim cmd = true) :
    (process_handler cfg (setPasswordFlag ctx b₁) fs ⟨some cmd, t, stdin⟩ handler).fs =
      (process_handler cfg (setPasswordFlag ctx b₂) fs ⟨some cmd, t, stdin⟩ handler).fs ∧
    (process_handler cfg (setPasswordFlag ctx b₁) fs ⟨some cmd, t, stdin⟩ handler).status =
      (process_handler cfg (setPasswordFlag ctx b₂) fs ⟨some cmd, t, stdin⟩ handler).status ∧
    (process_handler cfg (setPasswordFlag ctx b₁) fs ⟨some cmd, t, stdin⟩ handler).stdout =
      (process_handler cfg (setPasswordFlag ctx b₂) fs ⟨some cmd, t, stdin⟩ handler).stdout := by
  rw [process_handler_claim _ _ _ _ _ _ _ h]
  rw [process_handler_claim _ _ _ _ _ _ _ h]
  exact ⟨rfl, rfl, rfl⟩

/-- Witness for C9: a password-authenticated and a key-authenticated
run of the same claim command produce the same Key Store. -/
theorem claimCommandAuthModeIndependent_witness :
    (process_handler sampleCfg (setPasswordFlag sampleCtx true) emptyFS
        ⟨some "add-authorized-keys", Option.none, "ssh-rsa KEY"⟩
        (HandlerOutcome.returns PyValue.none)).fs =
      (process_handler sampleCfg (setPasswordFlag sampleCtx false) emptyFS
        ⟨some "add-authorized-keys", Option.none, "ssh-rsa KEY"⟩
        (HandlerOutcome.returns PyValue.none)).fs :=
  (claimCommandAuthModeIndependent sampleCfg sampleCtx emptyFS "add-authorized-keys"
    "ssh-rsa KEY" Option.none (HandlerOutcome.returns PyValue.none) true false (by decide)).1

theorem show_help_ok_of_wellformed (ctx : ConnectionContext)
    (h : addressWellFormed ctx.extra.external_address = true) :
    ∃ msg, show_add_authorized_keys_help ctx = .ok msg := by
  unfold show_add_authorized_keys_help
  cases hea : ctx.extra.external_address with
  | none => exact ⟨_, rfl⟩
  | some ea =>
    rw [hea] at h
    unfold addressWellFormed at h
    by_cases hc : strContains ea ":" = true
    · simp only [hc, Bool.not_true, Bool.false_or, beq_iff_eq] at h
      obtain ⟨a, b, hab⟩ := List.length_eq_two.mp h
      simp only [hc, if_true, hab]
      exact ⟨_, rfl⟩
    · have hc' : strContains ea ":" = false := by
        cases hcc : strContains ea ":"
        · rfl
        · exact absurd hcc hc
      simp only [hc', Bool.false_eq_true, if_false]
      exact ⟨_, rfl⟩

theorem command_body_unsupported_pubkey (cfg : ServerConfig) (ctx : ConnectionContext)
    (fs : FileSystem) (cmd stdin : String)
    (h : commandTriggersClaim cmd = false) (hp : ctx.extra.password_auth_used = false) :
    process_command_handler cfg ctx fs cmd stdin =
      .done fs [unsupportedCommandNotice cmd] 1 0 := by
  simp [process_command_handler, h, hp]

theorem command_body_unsupported_password (cfg : ServerConfig) (ctx : ConnectionContext)
    (fs : FileSystem) (cmd stdin msg : String)
    (h : commandTriggersClaim cmd = false) (hp : ctx.extra.password_auth_used = true)
    (hm : show_add_authorized_keys_help ctx = .ok msg) :
    process_command_handler cfg ctx fs cmd stdin =
      .done fs [unsupportedCommandNotice cmd, "", msg] 1 0 := by
  simp [process_command_handler, h, hp, hm]

/-- C4: any command other than the key-claim trigger writes the
unsupported-command notice and exits 1 without touching the Key Store;
a public-key-authenticated connection gets only the notice, while a
password-authenticated one additionally gets a blank line and the
claim instructions. -/
theorem unsupportedCommandRejected (cfg : ServerConfig) (ctx : ConnectionContext)
    (fs : FileSystem) (cmd stdin : String) (t : Option String)
    (handler : HandlerOutcome) (h : commandTriggersClaim cmd = false)
    (hw : addressWellFormed ctx.extra.external_address = true) :
    (process_handler cfg ctx fs ⟨some cmd, t, stdin⟩ handler).status = 1 ∧
    (process_handler cfg ctx fs ⟨some cmd, t, stdin⟩ handler).fs = fs ∧
    (process_handler cfg ctx fs ⟨some cmd, t, stdin⟩ handler).handlerCalls = 0 ∧
    (process_handler cfg ctx fs ⟨some cmd, t, stdin⟩ handler).stdout.head? =
      some (unsupportedCommandNotice cmd) ∧
    (ctx.extra.password_auth_used = false →
      (process_handler cfg ctx fs ⟨some cmd, t, stdin⟩ handler).stdout =
        [unsupportedCommandNotice cmd]) ∧
    (ctx.extra.password_auth_used = true →
      ∃ msg, show_add_authorized_keys_help (handlerCtx ctx ⟨some cmd, t, stdin⟩) = .ok msg ∧
        (process_handler cfg ctx fs ⟨some cmd, t, stdin⟩ handler).stdout =
          [unsupportedCommandNotice cmd, "", msg]) := by
  cases hp : ctx.extra.password_auth_used
  case false =>
    have hp' : (handlerCtx ctx ⟨some cmd, t, stdin⟩).extra.password_auth_used = false := hp
    rw [process_handler_eq]
    simp only [processBody]
    rw [command_body_unsupported_pubkey _ _ _ _ _ h hp']
    exact ⟨rfl, rfl, rfl, rfl, fun _ => rfl, fun hc => Bool.noConfusion hc⟩
  case true =>
    have hw' : addressWellFormed
        (handlerCtx ctx ⟨some cmd, t, stdin⟩).extra.external_address = true := hw
    obtain ⟨msg, hm⟩ := show_help_ok_of_wellformed _ hw'
    have hp' : (handlerCtx ctx ⟨some cmd, t, stdin⟩).extra.password_auth_used = true := hp
    rw [process_handler_eq]
    simp only [processBody]
    rw [command_body_unsupported_password _ _ _ _ _ _ h hp' hm]
    exact ⟨rfl, rfl, rfl, rfl, fun hc => Bool.noConfusion hc, fun _ => ⟨msg, hm, rfl⟩⟩

/-- Witness for C4: a password-authenticated connection running "ls"
exits 1 with the notice, a blank line and the claim instructions. -/
theorem unsupportedCommandRejected_witness :
    (process_handler sampleCfg (setPasswordFlag sampleCtx true) emptyFS
        ⟨some "ls", Option.none, ""⟩ (HandlerOutcome.returns PyValue.none)).status = 1 :=
  (unsupportedCommandRejected sampleCfg (setPasswordFlag sampleCtx true) emptyFS "ls" ""
    Option.none (HandlerOutcome.returns PyValue.none) (by decide) (by decide)).1

theorem shell_body_run (ctx : ConnectionContext) (fs : FileSystem) (t : String)
    (v : PyValue) (hp : ctx.extra.password_auth_used = false) :
    process_shell_handler ctx fs (some t) (.returns v) =
      (match processExit (pyOr v (PyValue.int 0)) with
        | .ok n => HandlerStep.done fs [] n 1
        | .error e => HandlerStep.raised fs [] 1 e) := by
  simp [process_shell_handler, hp]

theorem shell_body_raises (ctx : ConnectionContext) (fs : FileSystem) (t : String)
    (e : PyError) (hp : ctx.extra.password_auth_used = false) :
    process_shell_handler ctx fs (some t) (.raises e) = .raised fs [] 1 e := by
  simp [process_shell_handler, hp]

/-- C6: a public-key-authenticated shell request with a negotiated
terminal invokes the Session Handler exactly once and propagates its
result: an integer result is the exit status directly, any other
truthy result maps to exit 1 and any falsy result to exit 0 (so 0
exits 0 and True exits 1). -/
theorem shellPropagatesHandlerResult (cfg : ServerConfig) (ctx : ConnectionContext)
    (fs : FileSystem) (stdin t : String) (v : PyValue)
    (hp : ctx.extra.password_auth_used = false) :
    (process_handler cfg ctx fs ⟨Option.none, some t, stdin⟩
        (.returns v)).handlerCalls = 1 ∧
    (process_handler cfg ctx fs ⟨Option.none, some t, stdin⟩ (.returns v)).status =
      (if v.truthy then (match v with | .int n => n | _ => 1) else 0) ∧
    (v = .int 0 →
      (process_handler cfg ctx fs ⟨Option.none, some t, stdin⟩ (.returns v)).status = 0) ∧
    (v = .bool true →
      (process_handler cfg ctx fs ⟨Option.none, some t, stdin⟩ (.returns v)).status = 1) := by
  have hp' : (handlerCtx ctx ⟨Option.none, some t, stdin⟩).extra.password_auth_used
      = false := hp
  rw [process_handler_eq]
  simp only [processBody]
  rw [shell_body_run _ _ _ _ hp']
  refine ⟨?_, ?_, ?_, ?_⟩
  · cases hpe : processExit (pyOr v (PyValue.int 0)) with
    | ok n => simp [hpe, HandlerStep.handlerCallCount]
    | error e => simp [hpe, HandlerStep.handlerCallCount]
  · cases v with
    | int n =>
      by_cases hn : n = 0
      · subst hn
        simp [pyOr, PyValue.truthy, processExit, HandlerStep.exitStatus]
      · simp [pyOr, PyValue.truthy, processExit, HandlerStep.exitStatus, hn]
    | bool b =>
      cases b <;> simp [pyOr, PyValue.truthy, processExit, HandlerStep.exitStatus]
    | str s =>
      by_cases hs : s = ""
      · subst hs
        simp [pyOr, PyValue.truthy, processExit, HandlerStep.exitStatus]
      · simp [pyOr, PyValue.truthy, processExit, HandlerStep.exitStatus, hs]
    | none => simp [pyOr, PyValue.truthy, processExit, HandlerStep.exitStatus]
  · intro hv
    subst hv
    simp [pyOr, processExit, PyValue.truthy, HandlerStep.exitStatus]
  · intro hv
    subst hv
    simp [pyOr, processExit, PyValue.truthy, HandlerStep.exitStatus]

/-- Witness for C6: at a concrete key-authenticated terminal session,
a handler returning True yields exit status 1. -/
theorem shellPropagatesHandlerResult_witness :
    (process_handler sampleCfg sampleCtx emptyFS ⟨Option.none, some "xterm", ""⟩
        (HandlerOutcome.returns (PyValue.bool true))).status = 1 :=
  (shellPropagatesHandlerResult sampleCfg sampleCtx emptyFS "" "xterm"
    (PyValue.bool true) rfl).2.2.2 rfl

/-- C7: any exception raised inside process handling is caught at the
router boundary and mapped to exit status 1 (the router's result type
is total, so nothing propagates to the transport layer); in particular
a session handler that raises yields exit 1 after exactly one
invocation. -/
theorem handlerExceptionsCaught (cfg : ServerConfig) (ctx : ConnectionContext)
    (fs : FileSystem) (req : ProcessRequest) (handler : HandlerOutcome) :
    ((processBody cfg (handlerCtx ctx req) fs req handler).didRaise = true →
      (process_handler cfg ctx fs req handler).status = 1 ∧
      (process_handler cfg ctx fs req handler).raisedCaught = true) ∧
    (∀ e t stdin, req = ⟨Option.none, some t, stdin⟩ →
      ctx.extra.password_auth_used = false → handler = .raises e →
      (process_handler cfg ctx fs req handler).status = 1 ∧
      (process_handler cfg ctx fs req handler).raisedCaught = true ∧
      (process_handler cfg ctx fs req handler).handlerCalls = 1) := by
  constructor
  · intro hr
    rw [process_handler_eq]
    cases hb : processBody cfg (handlerCtx ctx req) fs req handler with
    | done fs2 out st calls =>
      simp [hb, HandlerStep.didRaise] at hr
    | raised fs2 out calls e =>
      exact ⟨rfl, rfl⟩
  · intro e t stdin hreq hp hh
    subst hreq
    subst hh
    have hp' : (handlerCtx ctx ⟨Option.none, some t, stdin⟩).extra.password_auth_used
        = false := hp
    rw [process_handler_eq]
    simp only [processBody]
    rw [shell_body_raises _ _ _ _ hp']
    exact ⟨rfl, rfl, rfl⟩

/-- Witness for C7: a raising session handler on a key-authenticated
terminal session exits 1 with the exception caught. -/
theorem handlerExceptionsCaught_witness :
    (process_handler sampleCfg sampleCtx emptyFS ⟨Option.none, some "xterm", ""⟩
        (HandlerOutcome.raises PyError.valueError)).status = 1 :=
  ((handlerExceptionsCaught sampleCfg sampleCtx emptyFS ⟨Option.none, some "xterm", ""⟩
      (HandlerOutcome.raises PyError.valueError)).2
    PyError.valueError "xterm" "" rfl rfl rfl).1

theorem process_handler_ctx (cfg : ServerConfig) (ctx : ConnectionContext)
    (fs : FileSystem) (req : ProcessRequest) (handler : HandlerOutcome) :
    (process_handler cfg ctx fs req handler).ctx = handlerCtx ctx req := by
  rw [process_handler_eq]

theorem begin_auth_extra (fs : FileSystem) (ctx : ConnectionContext) (u : String) :
    (begin_auth fs ctx u).ctx.extra = ctx.extra := by
  unfold begin_auth
  cases h : set_authorized_keys fs ("./authorized_keys/" ++ sanitize_filename u) <;>
    simp [h]

/-- C5: evaluation of `begin_auth` at a failing input. With a
non-default `authorized_keys_dir` of "keys" and claimed username
"alice", `begin_auth` still accepts and swallows the load error, but it
points credential validation at the hard-coded path
"./authorized_keys/alice", which is not the Key Store Entry
"keys/alice" that the claim command appends to. -/
theorem beginAuthKeyPathMismatch :
    (begin_auth emptyFS sampleCtx "alice").accept = true ∧
    (begin_auth emptyFS sampleCtx "alice").keysLoaded = false ∧
    (begin_auth emptyFS sampleCtx "alice").keyPath = "./authorized_keys/alice" ∧
    claimEntryPath
        { user_claim_password := some "hunter2", external_address := none,
          authorized_keys_dir := "keys" } "alice" = "keys/alice" ∧
    (begin_auth emptyFS sampleCtx "alice").keyPath ≠
      claimEntryPath
        { user_claim_password := some "hunter2", external_address := none,
          authorized_keys_dir := "keys" } "alice" := by
  decide

/-- C10 counterexample: with a configured claim password, a failed
password validation does not leave the Connection Context unchanged —
it records `password_auth_used = false` in the logging context — even
though the extra-info flag itself is untouched. -/
theorem validatePasswordTouchesLog :
    (validate_password sampleCfg sampleCtx "alice" "wrong").result = false ∧
    (validate_password sampleCfg sampleCtx "alice" "wrong").ctx ≠ sampleCtx ∧
    (validate_password sampleCfg sampleCtx "alice" "wrong").ctx.extra = sampleCtx.extra := by
  decide

/-- C10 (amended): the extra-info flag `password_auth_used` is
monotone — `validate_password` sets it to true exactly when the
candidate equals the configured claim password, a failed validation
leaves all of extra-info (hence the flag) unchanged while recording the
boolean outcome in the logging context, and neither `process_handler`
nor `begin_auth` ever changes the flag. -/
theorem validatePasswordFlagMonotone (cfg : ServerConfig) (ctx : ConnectionContext)
    (u p : String) :
    ((validate_password cfg ctx u p).result = true ↔
      cfg.user_claim_password = some p) ∧
    ((validate_password cfg ctx u p).ctx.extra.password_auth_used = true ↔
      (ctx.extra.password_auth_used = true ∨ cfg.user_claim_password = some p)) ∧
    (ctx.extra.password_auth_used = true →
      (validate_password cfg ctx u p).ctx.extra.password_auth_used = true) ∧
    ((validate_password cfg ctx u p).result = false →
      (validate_password cfg ctx u p).ctx.extra = ctx.extra ∧
      (validate_password cfg ctx u p).ctx.log =
        { ctx.log with password_auth_used := some false }) ∧
    (∀ fs req handler,
      (process_handler cfg ctx fs req handler).ctx.extra.password_auth_used =
        ctx.extra.password_auth_used) ∧
    (∀ fs u2, (begin_auth fs ctx u2).ctx.extra = ctx.extra) := by
  have hph : ∀ (fs : FileSystem) (req : ProcessRequest) (handler : HandlerOutcome),
      (process_handler cfg ctx fs req handler).ctx.extra.password_auth_used =
        ctx.extra.password_auth_used := by
    intro fs req handler
    rw [process_handler_ctx]
    rfl
  cases hb : cfg.user_claim_password == some p
  case false =>
    have hne : ¬ cfg.user_claim_password = some p := by
      intro hx
      rw [hx] at hb
      simp at hb
    refine ⟨?_, ?_, ?_, ?_, hph, fun fs u2 => begin_auth_extra fs ctx u2⟩
    · simp [validate_password, hb, hne]
    · simp [validate_password, hb, hne]
    · intro hflag
      simp [validate_password, hb, hflag]
    · intro _
      exact ⟨by simp [validate_password, hb], by simp [validate_password, hb]⟩
  case true =>
    have heq : cfg.user_claim_password = some p := by
      exact eq_of_beq hb
    refine ⟨?_, ?_, ?_, ?_, hph, fun fs u2 => begin_auth_extra fs ctx u2⟩
    · simp [validate_password, hb, heq]
    · simp [validate_password, hb, heq]
    · intro _
      simp [validate_password, hb]
    · intro hres
      rw [show (validate_password cfg ctx u p).result = true from by
        simp [validate_password, hb]] at hres
      exact absurd hres (by simp)

/-- Witness for the amended C10: a failed validation leaves extra-info
unchanged while the logging context records the failure. -/
theorem validatePasswordFlagMonotone_witness :
    (validate_password sampleCfg sampleCtx "alice" "wrong").ctx.extra =
      sampleCtx.extra ∧
    (validate_password sampleCfg sampleCtx "alice" "wrong").ctx.log =
      { sampleCtx.log with password_auth_used := some false } :=
  (validatePasswordFlagMonotone sampleCfg sampleCtx "alice" "wrong").2.2.2.1 (by decide)

end McqTerm
